import Mathlib

/-!
Verification of the game-error-detection pass of Chess-Analyzer

Shallow embedding of the core of the repository:

* `ChessAnalyzer.get_error_type` and the per-ply driver loop of
  `ChessAnalyzer.analyze_game` from `analyze.py`;
* `ChessDatabase.generate_game_id`, `game_analyzed`, `add_game`,
  `get_analysis` from `database.py`;
* the cache-skip loop of `main` from `improvement_suggestions.py`.

Python floats are modelled as `ℚ` (every value the driver manipulates is an
integer number of centipawns divided by 100, exactly representable).  The
external evaluator, board pushing and SAN rendering are modelled as an
explicit environment (`Env`): the driver in `analyze.py` only observes them
through `engine.analyse`, `board.push` and `board.san`, each of which may
raise; an `Except` result models the raise.  The second component of the
embedded `analyze_game` records the list of positions submitted to the
evaluator, so that "no evaluator call is made" is a statable property.
-/

/-- Python's `str.lower()` as used on the header names and username in
`analyze_game` (ASCII case folding, which is all the repository relies on):
lower-case every character. -/
def pyLower (s : String) : String := String.mk (s.data.map Char.toLower)

/-- A board position as the driver observes it: its FEN text and whose turn
it is (`true` = White to move), mirroring `board.fen()` and
`board.turn == chess.WHITE` in `analyze.py`. -/
structure Board where
  fen : String
  turn : Bool
deriving Repr, DecidableEq

/-- An engine score as returned inside `info['score']`, already converted to
the White point of view (the code always calls `.white()`): either a
centipawn value or a forced mate in `n` moves (negative `n`: the opponent
mates). -/
inductive Score where
  | cp (n : Int)
  | mate (n : Int)
deriving Repr, DecidableEq

/-- Models the python-chess library call `.score(mate_score=m)` on a
White-point-of-view score: `Cp(v)` gives `v`; `Mate(n)` gives `m - n` when
`n > 0` and `-m - n` otherwise (python-chess documents
`Mate(-4).score(mate_score=100000) == -99996`). -/
def Score.whiteScore (mateScore : Int) : Score → Int
  | .cp n => n
  | .mate n => if 0 < n then mateScore - n else -mateScore - n

/-- One emitted error, with the fields built at `analyze.py` lines 173-183.
Evaluations are in pawns (centipawns divided by 100). -/
structure ErrorRecord where
  move_number : Nat
  move : String
  fen_before : String
  eval_before : ℚ
  eval_after : ℚ
  eval_change : ℚ
  san_move : String
  error_type : String
  player : String
deriving Repr, DecidableEq

/-- The three severity thresholds set in `ChessAnalyzer.__init__`. -/
structure ChessAnalyzer where
  blunder_threshold : ℚ
  mistake_threshold : ℚ
  inaccuracy_threshold : ℚ
deriving Repr, DecidableEq

/-- The analyzer with the default thresholds of `ChessAnalyzer.__init__`:
-1.5, -0.8, -0.3 pawns. -/
def defaultAnalyzer : ChessAnalyzer :=
  { blunder_threshold := -1.5, mistake_threshold := -0.8, inaccuracy_threshold := -0.3 }

/-- Embeds `ChessAnalyzer.get_error_type`: classify an evaluation change (pawns)
into a severity tier. -/
def ChessAnalyzer.get_error_type (a : ChessAnalyzer) (eval_change : ℚ) : String :=
  if eval_change ≤ a.blunder_threshold then "Blunder"
  else if eval_change ≤ a.mistake_threshold then "Mistake"
  else if eval_change ≤ a.inaccuracy_threshold then "Inaccuracy"
  else "Good"

/-- The environment a single game analysis runs against: the engine
(`engine.analyse`, which returns an info map whose `score` entry may be
missing, or raises), move application (`board.push`, which may raise) and
SAN rendering (`board.san`; `none` models the `ValueError`/`AttributeError`
caught at `analyze.py` line 137).  An `Except.error` models a raised
exception. -/
structure Env where
  analyse : Board → Except Unit (Option Score)
  push : Board → String → Except Unit Board
  san : Board → String → Option String

/-- A parsed game as `analyze_game` consumes it: the `White` and `Black`
header names, the starting board and the mainline moves (UCI strings). -/
structure Game where
  white : String
  black : String
  board : Board
  moves : List String

/-- The `info.get` handling at `analyze.py` lines 142-146 and
152-157 (`info.get('score', None)`): a missing score is treated as `0` centipawns, a present one is
converted with `.white().score(mate_score=10000)`. -/
def evalCp : Option Score → Int
  | none => 0
  | some s => s.whiteScore 10000

/-- The perspective arithmetic of `analyze.py` lines 159-165: when White
moved, `after - before`; when Black moved, `(-after) - (-before)`
(centipawns, White-point-of-view inputs). -/
def evalChangeCp (is_white_turn : Bool) (before after : Int) : Int :=
  if is_white_turn then after - before else -after - (-before)

/-- The body of the per-move `try:` block of `analyze_game`
(`analyze.py` lines 125-189) for one ply.  Returns the positions submitted
to the evaluator, and either `.error b` — an exception was raised with the
board in state `b` — or `.ok (b', record?)` — the board advanced to `b'`
and `record?` is the error record appended, if any. -/
def analyzePly (a : ChessAnalyzer) (env : Env) (is_player_white is_player_black : Bool)
    (board : Board) (uci : String) (move_number : Nat) :
    List Board × Except Board (Board × Option ErrorRecord) :=
  let fen_before := board.fen
  let is_white_turn := board.turn
  let should_analyze := (is_white_turn && is_player_white) || (!is_white_turn && is_player_black)
  if should_analyze then
    let san_move := (env.san board uci).getD uci
    match env.analyse board with
    | .error _ => ([board], .error board)
    | .ok info_before =>
      let eval_before_centipawns := evalCp info_before
      match env.push board uci with
      | .error _ => ([board], .error board)
      | .ok board2 =>
        match env.analyse board2 with
        | .error _ => ([board, board2], .error board2)
        | .ok info_after =>
          let eval_after_centipawns := evalCp info_after
          let eval_change := evalChangeCp is_white_turn eval_before_centipawns eval_after_centipawns
          let eval_change_pawns : ℚ := (eval_change : ℚ) / 100
          let record :=
            if eval_change_pawns ≤ a.inaccuracy_threshold then
              some { move_number := move_number, move := uci, fen_before := fen_before,
                     eval_before := (eval_before_centipawns : ℚ) / 100,
                     eval_after := (eval_after_centipawns : ℚ) / 100,
                     eval_change := eval_change_pawns,
                     san_move := san_move,
                     error_type := a.get_error_type eval_change_pawns,
                     player := if is_player_white then "White" else "Black" }
            else none
          ([board, board2], .ok (board2, record))
  else
    match env.push board uci with
    | .error _ => ([], .error board)
    | .ok board2 => ([], .ok (board2, none))

/-- The move loop of `analyze_game` (`analyze.py` lines 124-201), including
the `except` handler at lines 191-199: on a per-ply exception the driver
still tries `board.push(move)` and continues; if that push also raises it
breaks out of the loop.  Accumulates the error list and the list of
positions submitted to the evaluator. -/
def analyzeMoves (a : ChessAnalyzer) (env : Env) (is_player_white is_player_black : Bool) :
    List String → Board → Nat → List ErrorRecord → List Board →
    List ErrorRecord × List Board
  | [], _, _, errors, calls => (errors, calls)
  | uci :: rest, board, move_number, errors, calls =>
    match analyzePly a env is_player_white is_player_black board uci move_number with
    | (newCalls, .ok (board2, record)) =>
        analyzeMoves a env is_player_white is_player_black rest board2 (move_number + 1)
          (errors ++ record.toList) (calls ++ newCalls)
    | (newCalls, .error boardAtRaise) =>
        match env.push boardAtRaise uci with
        | .ok board2 =>
            analyzeMoves a env is_player_white is_player_black rest board2 (move_number + 1)
              errors (calls ++ newCalls)
        | .error _ => (errors, calls ++ newCalls)

/-- Embeds `ChessAnalyzer.analyze_game` (`analyze.py` lines 84-205) on a parsed
game: the case-insensitive username check at lines 107-117, then the move
loop.  First component: the returned error list; second: every position
submitted to the evaluator during the run. -/
def analyze_game (a : ChessAnalyzer) (env : Env) (game : Game) (username : String) :
    List ErrorRecord × List Board :=
  let white_player := pyLower game.white
  let black_player := pyLower game.black
  let username_lower := pyLower username
  if username_lower == white_player || username_lower == black_player then
    let is_player_white := username_lower == white_player
    let is_player_black := username_lower == black_player
    analyzeMoves a env is_player_white is_player_black game.moves game.board 1 [] []
  else ([], [])

/-- A fetched game as the batch loop in `improvement_suggestions.main` sees
it: only its PGN text matters to the cache decision. -/
structure GameRec where
  pgn : String
deriving Repr, DecidableEq

/-- One row of the `games` table, restricted to the columns the claims
read: the deterministic `game_id` and the `analyzed` flag (`DEFAULT FALSE`
on insert).  The metadata columns (username, pgn, players, result, dates)
do not influence the cache decision and are omitted. -/
structure DBGameRow where
  game_id : String
  analyzed : Bool
deriving Repr, DecidableEq

/-- The SQLite state as the claims observe it: the `games` rows and, per
`game_id`, the stored analysis rows (kept as the ordered record list that
`get_analysis` returns). -/
structure DB where
  games : List DBGameRow
  analysis : List (String × List ErrorRecord)
deriving DecidableEq

/-- Embeds `ChessDatabase.generate_game_id` (`database.py` lines 74-77):
`md5(f"{pgn[:100]}{username}").hexdigest()`.  The MD5 hex digest is a pure
function of its input string and is passed in as `md5hex`; every property
proved below holds for an arbitrary digest function. -/
def generate_game_id (md5hex : String → String) (pgn username : String) : String :=
  md5hex (pgn.take 100 ++ username)

/-- Embeds `ChessDatabase.game_exists`: is there a `games` row with this id? -/
def DB.game_exists (db : DB) (game_id : String) : Bool :=
  db.games.any fun row => row.game_id == game_id

/-- Embeds `ChessDatabase.game_analyzed` (`database.py` lines 86-92): the stored
`analyzed` flag, or `False` when the game is absent. -/
def DB.game_analyzed (db : DB) (game_id : String) : Bool :=
  match db.games.find? (fun row => row.game_id == game_id) with
  | some row => row.analyzed
  | none => false

/-- Embeds `ChessDatabase.add_game` (`database.py` lines 94-127): compute the id;
if the row exists, leave the database unchanged; otherwise insert a fresh
row with `analyzed = FALSE`.  Returns the updated database and the id. -/
def DB.add_game (db : DB) (md5hex : String → String) (pgn username : String) : DB × String :=
  let game_id := generate_game_id md5hex pgn username
  if db.game_exists game_id then (db, game_id)
  else ({ db with games := db.games ++ [{ game_id := game_id, analyzed := false }] }, game_id)

/-- Embeds `ChessDatabase.get_analysis` (`database.py` lines 166-201): the stored
error records for a game id (empty when none are stored). -/
def DB.get_analysis (db : DB) (game_id : String) : List ErrorRecord :=
  match db.analysis.find? (fun entry => entry.1 == game_id) with
  | some entry => entry.2
  | none => []

/-- The cache-skip loop of `main` (`improvement_suggestions.py` lines
106-118): for each fetched game with a non-empty PGN, `add_game` it, then
either collect its cached analysis (when `game_analyzed` reports `True`) or
queue it for analysis.  Returns the final database, the cached record lists
(in game order) and the queued games. -/
def processGames (md5hex : String → String) (username : String) :
    DB → List GameRec → DB × List (List ErrorRecord) × List GameRec
  | db, [] => (db, [], [])
  | db, g :: rest =>
    if g.pgn ≠ "" then
      match db.add_game md5hex g.pgn username with
      | (db1, game_id) =>
        if db1.game_analyzed game_id then
          match processGames md5hex username db1 rest with
          | (db2, cachedLists, toAnalyze) =>
            (db2, db1.get_analysis game_id :: cachedLists, toAnalyze)
        else
          match processGames md5hex username db1 rest with
          | (db2, cachedLists, toAnalyze) => (db2, cachedLists, g :: toAnalyze)
    else processGames md5hex username db rest

/-- The combined error list `all_errors` of `improvement_suggestions.main`:
the cached lists flattened, followed by the results of dispatching the
queued games to the analysis worker (`analyzeFn` abstracts
`analyze_game_worker`; workers complete in an unspecified order, modelled
here in queue order). -/
def coordinatorErrors (md5hex : String → String) (db : DB) (username : String)
    (games : List GameRec) (analyzeFn : String → List ErrorRecord) : List ErrorRecord :=
  let r := processGames md5hex username db games
  r.2.1.flatten ++ (r.2.2.map fun g => analyzeFn g.pgn).flatten

/-! ## Concrete instances used in worked examples and witnesses -/

/-- An environment whose evaluator never produces a score and whose board
operations are inert; used where only the control flow matters. -/
def trivialEnv : Env :=
  { analyse := fun _ => .ok none
    push := fun b _ => .ok b
    san := fun _ _ => none }

/-- Environment for the C1 worked example: the evaluator scores the
starting position (White to move) at +50 centipawns and the position after
the move (Black to move) at -100 centipawns. -/
def c1Env : Env :=
  { analyse := fun b => .ok (some (.cp (if b.turn then 50 else -100)))
    push := fun b _ => .ok { fen := "f1", turn := !b.turn }
    san := fun _ _ => some "e4" }

/-- One-move game for the C1 worked example, analyzed for the White
player. -/
def c1Game : Game :=
  { white := "alice", black := "bob", board := { fen := "f0", turn := true }, moves := ["e2e4"] }

/-- The single record the C1 worked example emits: before +0.50 pawns,
after -1.00 pawns, mover (White) delta -1.50 pawns, a Blunder. -/
def c1Record : ErrorRecord :=
  { move_number := 1, move := "e2e4", fen_before := "f0", eval_before := 1/2,
    eval_after := -1, eval_change := -3/2, san_move := "e4",
    error_type := "Blunder", player := "White" }

/-- Environment in which the evaluator call always raises and pushing a
move always raises: drives the per-ply exception handler into its `break`
path. -/
def c3Env : Env :=
  { analyse := fun _ => .error ()
    push := fun _ _ => .error ()
    san := fun _ _ => none }

/-- Starting board for the C3 and C5 witnesses. -/
def c3Board : Board := { fen := "f0", turn := true }

/-- Environment for the C5 witness: the evaluator produces no score for the
White-to-move position (the before-position of the examined ply) and -100
centipawns for the Black-to-move position after the move. -/
def c5Env : Env :=
  { analyse := fun b => if b.turn then .ok none else .ok (some (.cp (-100)))
    push := fun b _ => .ok { fen := "f1", turn := !b.turn }
    san := fun _ _ => none }

/-- Game for the C7 counterexample: the tracked username matches **both**
header names, so `is_player_white` and `is_player_black` are both true and
every ply is analyzed. -/
def c7Game : Game :=
  { white := "alice", black := "alice", board := { fen := "f0", turn := true },
    moves := ["m1", "m2"] }

/-- Environment for the C7 counterexample: every White-to-move position
scores 0 and every Black-to-move position scores -150 centipawns, so both
plies register a -1.50 mover delta. -/
def c7Env : Env :=
  { analyse := fun b => .ok (some (.cp (if b.turn then 0 else -150)))
    push := fun b _ => .ok { fen := if b.turn then "f1" else "f2", turn := !b.turn }
    san := fun _ _ => none }

/-- The record the C7 counterexample game emits for White's ply. -/
def c7Record1 : ErrorRecord :=
  { move_number := 1, move := "m1", fen_before := "f0", eval_before := 0,
    eval_after := -3/2, eval_change := -3/2, san_move := "m1",
    error_type := "Blunder", player := "White" }

/-- The record the C7 counterexample game emits for Black's ply: its
`player` field says "White" although the position it was evaluated from
(`fen_before = "f1"`) had Black to move. -/
def c7Record2 : ErrorRecord :=
  { move_number := 2, move := "m2", fen_before := "f1", eval_before := -3/2,
    eval_after := 0, eval_change := -3/2, san_move := "m2",
    error_type := "Blunder", player := "White" }

/-- The board on which Black's ply of the C7 counterexample game was
evaluated: Black to move. -/
def c7BoardBlack : Board := { fen := "f1", turn := false }

/-- A sample stored record for the cache-skip witness. -/
def c9Record : ErrorRecord :=
  { move_number := 3, move := "d2d4", fen_before := "f9", eval_before := 1,
    eval_after := 0, eval_change := -1, san_move := "d4",
    error_type := "Mistake", player := "White" }

/-- Cache state for the C9 witness: game `"pgn1u"` is present, marked
analyzed, and has one stored record; game `"pgn2u"` is present but not
analyzed. -/
def c9Db : DB :=
  { games := [{ game_id := "pgn1u", analyzed := true }, { game_id := "pgn2u", analyzed := false }]
    analysis := [("pgn1u", [c9Record])] }

/-! ## Helper lemmas -/

/-- A delta at or below the inaccuracy threshold never classifies as
"Good": one of the three error tiers is returned. -/
theorem get_error_type_cases (a : ChessAnalyzer) (d : ℚ) (h : d ≤ a.inaccuracy_threshold) :
    a.get_error_type d = "Blunder" ∨ a.get_error_type d = "Mistake" ∨
      a.get_error_type d = "Inaccuracy" := by
  unfold ChessAnalyzer.get_error_type
  split_ifs with h1 h2
  · exact Or.inl rfl
  · exact Or.inr (Or.inl rfl)
  · exact Or.inr (Or.inr rfl)

/-- Anatomy of an emitted record: whenever `analyzePly` emits a record, the
ply belonged to the tracked player, the `player` field is the tracked
player's color, the tier was computed by `get_error_type` from the final
delta, and that delta is at or below the inaccuracy threshold. -/
theorem analyzePly_some {a : ChessAnalyzer} {env : Env} {ipw ipb : Bool} {board : Board}
    {uci : String} {n : Nat} {cs : List Board} {b2 : Board} {r : ErrorRecord}
    (h : analyzePly a env ipw ipb board uci n = (cs, .ok (b2, some r))) :
    ((board.turn && ipw) || (!board.turn && ipb)) = true ∧
    r.player = (if ipw then "White" else "Black") ∧
    r.error_type = a.get_error_type r.eval_change ∧
    r.eval_change ≤ a.inaccuracy_threshold := by
  by_cases hsa : ((board.turn && ipw) || (!board.turn && ipb)) = true
  · refine ⟨hsa, ?_⟩
    rcases h1 : env.analyse board with e | info_before
    · simp [analyzePly, hsa, h1] at h
    · rcases h2 : env.push board uci with e | bd2
      · simp [analyzePly, hsa, h1, h2] at h
      · rcases h3 : env.analyse bd2 with e | info_after
        · simp [analyzePly, hsa, h1, h2, h3] at h
        · by_cases h4 : ((evalChangeCp board.turn (evalCp info_before) (evalCp info_after) : ℚ)
              / 100 ≤ a.inaccuracy_threshold)
          · simp [analyzePly, hsa, h1, h2, h3, h4] at h
            rcases h with ⟨-, -, hr⟩
            rw [← hr]
            exact ⟨rfl, rfl, h4⟩
          · simp [analyzePly, hsa, h1, h2, h3, h4] at h
  · exfalso
    rcases h2 : env.push board uci with e | bd2 <;>
      simp [analyzePly, hsa, h2] at h

/-- Computation of a tracked ply on which no exception occurs: both
evaluator calls are made (on the pre- and post-move positions), an absent
score counts as 0 centipawns via `evalCp`, the delta is the
mover-perspective `evalChangeCp` divided by 100, and a record is emitted
exactly when that delta is at or below the inaccuracy threshold. -/
theorem analyzePly_tracked (a : ChessAnalyzer) (env : Env) (ipw ipb : Bool) (board : Board)
    (uci : String) (n : Nat) {iB iA : Option Score} {b2 : Board}
    (hsa : ((board.turn && ipw) || (!board.turn && ipb)) = true)
    (h1 : env.analyse board = .ok iB) (h2 : env.push board uci = .ok b2)
    (h3 : env.analyse b2 = .ok iA) :
    analyzePly a env ipw ipb board uci n =
      ([board, b2], .ok (b2,
        if ((evalChangeCp board.turn (evalCp iB) (evalCp iA) : ℚ) / 100) ≤ a.inaccuracy_threshold
        then some { move_number := n, move := uci, fen_before := board.fen,
                    eval_before := (evalCp iB : ℚ) / 100,
                    eval_after := (evalCp iA : ℚ) / 100,
                    eval_change := (evalChangeCp board.turn (evalCp iB) (evalCp iA) : ℚ) / 100,
                    san_move := (env.san board uci).getD uci,
                    error_type :=
                      a.get_error_type ((evalChangeCp board.turn (evalCp iB) (evalCp iA) : ℚ) / 100),
                    player := if ipw then "White" else "Black" }
        else none)) := by
  simp [analyzePly, hsa, h1, h2, h3]

/-- Every record in the output of the move loop either was already in the
accumulator or satisfies the emitted-record invariant of
`analyzePly_some`. -/
theorem mem_analyzeMoves (a : ChessAnalyzer) (env : Env) (ipw ipb : Bool)
    (moves : List String) :
    ∀ (board : Board) (n : Nat) (errors : List ErrorRecord) (calls : List Board)
      (r : ErrorRecord),
      r ∈ (analyzeMoves a env ipw ipb moves board n errors calls).1 →
      r ∈ errors ∨
        (r.player = (if ipw then "White" else "Black") ∧
         r.error_type = a.get_error_type r.eval_change ∧
         r.eval_change ≤ a.inaccuracy_threshold) := by
  induction moves with
  | nil => intro board n errors calls r h; exact Or.inl h
  | cons uci rest ih =>
    intro board n errors calls r h
    rw [analyzeMoves] at h
    rcases hp : analyzePly a env ipw ipb board uci n with ⟨newCalls, res⟩
    rw [hp] at h
    rcases res with bAt | ⟨board2, record⟩
    · dsimp only at h
      rcases hpush : env.push bAt uci with e | b2 <;> rw [hpush] at h <;> dsimp only at h
      · exact Or.inl h
      · exact ih b2 (n + 1) errors (calls ++ newCalls) r h
    · dsimp only at h
      rcases ih board2 (n + 1) (errors ++ record.toList) (calls ++ newCalls) r h with hin | hP
      · rcases List.mem_append.1 hin with hin1 | hin2
        · exact Or.inl hin1
        · right
          rcases record with _ | r'
          · simp at hin2
          · simp only [Option.toList_some, List.mem_singleton] at hin2
            subst hin2
            exact (analyzePly_some hp).2
      · exact Or.inr hP

/-- Every record returned by `analyze_game` satisfies the emitted-record
invariant (the accumulator starts empty). -/
theorem mem_analyze_game {a : ChessAnalyzer} {env : Env} {g : Game} {u : String}
    {r : ErrorRecord} (h : r ∈ (analyze_game a env g u).1) :
    r.player = (if (pyLower u == pyLower g.white) then "White" else "Black") ∧
    r.error_type = a.get_error_type r.eval_change ∧
    r.eval_change ≤ a.inaccuracy_threshold := by
  unfold analyze_game at h
  by_cases hc : ((pyLower u == pyLower g.white) || (pyLower u == pyLower g.black)) = true
  · rw [if_pos hc] at h
    rcases mem_analyzeMoves a env _ _ g.moves g.board 1 [] [] r h with h0 | hP
    · simp at h0
    · exact hP
  · rw [if_neg hc] at h
    simp at h

/-! ## Claim theorems -/

/-- C1: for every ply analyzed for the tracked player, `analyze_game`
computes the delta from the mover's own perspective out of the two
White-perspective scores — White mover: `after - before`; Black mover:
`(-after) - (-before)` — and on the worked example (before +0.50 pawns,
after -1.00 pawns, White to move) the mover delta is -1.50 pawns,
classified Blunder.  `evalChangeCp` is exactly the arithmetic `analyze_game`
performs at lines 159-167 (see `analyzePly` and `analyzePly_tracked`); the
second conjunct runs the full driver on a one-move game whose evaluator
reports +50 then -100 centipawns. -/
theorem c1_mover_perspective_delta :
    (∀ before after : Int, evalChangeCp true before after = after - before ∧
       evalChangeCp false before after = -after - (-before)) ∧
    (analyze_game defaultAnalyzer c1Env c1Game "alice").1 = [c1Record] ∧
    c1Record.eval_before = 1/2 ∧ c1Record.eval_after = -1 ∧
    c1Record.eval_change = -3/2 ∧ c1Record.error_type = "Blunder" := by
  refine ⟨fun before after => ⟨rfl, rfl⟩, ?_, rfl, rfl, rfl, rfl⟩
  norm_num [analyze_game, analyzeMoves, analyzePly, evalCp, evalChangeCp, Score.whiteScore,
    ChessAnalyzer.get_error_type, defaultAnalyzer, pyLower, c1Env, c1Game, c1Record]

/-- C2: with the default thresholds -1.5 / -0.8 / -0.3 pawns, the
classifier is total and inclusive on the worse side: `d ≤ -1.5` is Blunder,
`-1.5 < d ≤ -0.8` is Mistake, `-0.8 < d ≤ -0.3` is Inaccuracy, `d > -0.3`
is Good; in particular the boundary values -1.5, -0.8, -0.3, -0.29 classify
as Blunder, Mistake, Inaccuracy, Good. -/
theorem c2_error_classifier_thresholds :
    (∀ d : ℚ, d ≤ -1.5 → defaultAnalyzer.get_error_type d = "Blunder") ∧
    (∀ d : ℚ, -1.5 < d → d ≤ -0.8 → defaultAnalyzer.get_error_type d = "Mistake") ∧
    (∀ d : ℚ, -0.8 < d → d ≤ -0.3 → defaultAnalyzer.get_error_type d = "Inaccuracy") ∧
    (∀ d : ℚ, -0.3 < d → defaultAnalyzer.get_error_type d = "Good") ∧
    defaultAnalyzer.get_error_type (-1.5) = "Blunder" ∧
    defaultAnalyzer.get_error_type (-0.8) = "Mistake" ∧
    defaultAnalyzer.get_error_type (-0.3) = "Inaccuracy" ∧
    defaultAnalyzer.get_error_type (-0.29) = "Good" ∧
    defaultAnalyzer.blunder_threshold = -1.5 ∧
    defaultAnalyzer.mistake_threshold = -0.8 ∧
    defaultAnalyzer.inaccuracy_threshold = -0.3 := by
  refine ⟨?_, ?_, ?_, ?_, ?_, ?_, ?_, ?_, rfl, rfl, rfl⟩
  · intro d h
    unfold ChessAnalyzer.get_error_type defaultAnalyzer
    split_ifs <;> first | rfl | (exfalso; norm_num at *; linarith)
  · intro d h h2
    unfold ChessAnalyzer.get_error_type defaultAnalyzer
    split_ifs <;> first | rfl | (exfalso; norm_num at *; linarith)
  · intro d h h2
    unfold ChessAnalyzer.get_error_type defaultAnalyzer
    split_ifs <;> first | rfl | (exfalso; norm_num at *; linarith)
  · intro d h
    unfold ChessAnalyzer.get_error_type defaultAnalyzer
    split_ifs <;> first | rfl | (exfalso; norm_num at *; linarith)
  all_goals norm_num [ChessAnalyzer.get_error_type, defaultAnalyzer]

/-- Witness for C2: the classifier applied inside each band. -/
theorem c2_witness :
    defaultAnalyzer.get_error_type (-2) = "Blunder" ∧
    defaultAnalyzer.get_error_type (-1) = "Mistake" ∧
    defaultAnalyzer.get_error_type (-0.5) = "Inaccuracy" ∧
    defaultAnalyzer.get_error_type 0 = "Good" :=
  ⟨c2_error_classifier_thresholds.1 (-2) (by norm_num),
   c2_error_classifier_thresholds.2.1 (-1) (by norm_num) (by norm_num),
   c2_error_classifier_thresholds.2.2.1 (-0.5) (by norm_num) (by norm_num),
   c2_error_classifier_thresholds.2.2.2.1 0 (by norm_num)⟩

/-- C3: per-ply failure isolation in `analyze_game`'s move loop.  When
processing a ply raises (`analyzePly` ends in `.error`), the handler still
tries to apply the move: if that push succeeds the walk continues with the
next ply and the accumulated records are kept; if the push also raises, the
walk terminates early and returns exactly the records accumulated so far.
The embedded driver is a total function, so no exception escapes it. -/
theorem c3_per_ply_failure_isolation (a : ChessAnalyzer) (env : Env) (ipw ipb : Bool)
    (uci : String) (rest : List String) (board : Board) (n : Nat)
    (errors : List ErrorRecord) (calls cs : List Board) (bAt : Board)
    (hp : analyzePly a env ipw ipb board uci n = (cs, .error bAt)) :
    (env.push bAt uci = .error () →
       analyzeMoves a env ipw ipb (uci :: rest) board n errors calls = (errors, calls ++ cs)) ∧
    (∀ b2, env.push bAt uci = .ok b2 →
       analyzeMoves a env ipw ipb (uci :: rest) board n errors calls =
         analyzeMoves a env ipw ipb rest b2 (n + 1) errors (calls ++ cs)) := by
  constructor
  · intro hpush
    rw [analyzeMoves, hp]
    dsimp only
    rw [hpush]
  · intro b2 hpush
    rw [analyzeMoves, hp]
    dsimp only
    rw [hpush]

/-- Witness for C3: under `c3Env` the evaluator call raises and the
recovery push raises too, so a one-ply walk that already accumulated
`c1Record` stops early and still returns it. -/
theorem c3_witness :
    analyzePly defaultAnalyzer c3Env true false c3Board "m1" 1 = ([c3Board], .error c3Board) ∧
    c3Env.push c3Board "m1" = .error () ∧
    analyzeMoves defaultAnalyzer c3Env true false ["m1"] c3Board 1 [c1Record] [] =
      ([c1Record], [] ++ [c3Board]) :=
  ⟨rfl, rfl,
   (c3_per_ply_failure_isolation defaultAnalyzer c3Env true false "m1" [] c3Board 1
      [c1Record] [] [c3Board] c3Board rfl).1 rfl⟩

/-- C4: when the tracked username (case-insensitively) matches neither the
White nor the Black header name, `analyze_game` returns the empty error
list and performs no evaluator call at all (the recorded call list is also
empty). -/
theorem c4_username_not_found (a : ChessAnalyzer) (env : Env) (g : Game) (u : String)
    (hw : pyLower u ≠ pyLower g.white) (hb : pyLower u ≠ pyLower g.black) :
    analyze_game a env g u = ([], []) := by
  have hc : ((pyLower u == pyLower g.white) || (pyLower u == pyLower g.black)) = false := by
    simp [hw, hb]
  simp [analyze_game, hc]

/-- Witness for C4: "carol" is neither "alice" nor "bob". -/
theorem c4_witness :
    analyze_game defaultAnalyzer trivialEnv
      { white := "alice", black := "bob", board := { fen := "f0", turn := true },
        moves := ["m1"] } "carol" = ([], []) :=
  c4_username_not_found defaultAnalyzer trivialEnv
    { white := "alice", black := "bob", board := { fen := "f0", turn := true },
      moves := ["m1"] } "carol" (by decide) (by decide)

/-- C5: for a tracked ply on which no exception occurs, the delta uses
`evalCp` of each evaluator result — and `evalCp none = 0`, i.e. a missing
score on either side enters the delta as 0 centipawns — then the walk
continues with the subsequent plies (the right-hand side resumes on the
rest of the move list). -/
theorem c5_absent_score_as_zero (a : ChessAnalyzer) (env : Env) (ipw ipb : Bool)
    (uci : String) (rest : List String) (board b2 : Board) (n : Nat)
    (errors : List ErrorRecord) (calls : List Board) (iB iA : Option Score)
    (hsa : ((board.turn && ipw) || (!board.turn && ipb)) = true)
    (h1 : env.analyse board = .ok iB) (h2 : env.push board uci = .ok b2)
    (h3 : env.analyse b2 = .ok iA) :
    evalCp none = 0 ∧
    analyzeMoves a env ipw ipb (uci :: rest) board n errors calls =
      analyzeMoves a env ipw ipb rest b2 (n + 1)
        (errors ++ (if ((evalChangeCp board.turn (evalCp iB) (evalCp iA) : ℚ) / 100)
              ≤ a.inaccuracy_threshold
            then [{ move_number := n, move := uci, fen_before := board.fen,
                    eval_before := (evalCp iB : ℚ) / 100,
                    eval_after := (evalCp iA : ℚ) / 100,
                    eval_change := (evalChangeCp board.turn (evalCp iB) (evalCp iA) : ℚ) / 100,
                    san_move := (env.san board uci).getD uci,
                    error_type :=
                      a.get_error_type
                        ((evalChangeCp board.turn (evalCp iB) (evalCp iA) : ℚ) / 100),
                    player := if ipw then "White" else "Black" }]
            else []))
        (calls ++ [board, b2]) := by
  refine ⟨rfl, ?_⟩
  rw [analyzeMoves, analyzePly_tracked a env ipw ipb board uci n hsa h1 h2 h3]
  dsimp only
  have htl : ∀ (c : Prop) [Decidable c] (x : ErrorRecord),
      (if c then some x else none).toList = if c then [x] else [] := by
    intro c _ x
    split <;> rfl
  rw [htl]

/-- Witness for C5: under `c5Env` the evaluator produces no score for the
before-position and -100 centipawns for the after-position; the delta is
computed with 0 for the missing side and the walk continues. -/
theorem c5_witness :
    evalCp none = 0 ∧
    analyzeMoves defaultAnalyzer c5Env true false ["m1"] c3Board 1 [] [] =
      analyzeMoves defaultAnalyzer c5Env true false [] { fen := "f1", turn := false } (1 + 1)
        ([] ++ (if ((evalChangeCp c3Board.turn (evalCp none)
                (evalCp (some (.cp (-100)))) : ℚ) / 100)
              ≤ defaultAnalyzer.inaccuracy_threshold
            then [{ move_number := 1, move := "m1", fen_before := c3Board.fen,
                    eval_before := (evalCp none : ℚ) / 100,
                    eval_after := (evalCp (some (.cp (-100))) : ℚ) / 100,
                    eval_change := (evalChangeCp c3Board.turn (evalCp none)
                      (evalCp (some (.cp (-100)))) : ℚ) / 100,
                    san_move := (c5Env.san c3Board "m1").getD "m1",
                    error_type :=
                      defaultAnalyzer.get_error_type
                        ((evalChangeCp c3Board.turn (evalCp none)
                          (evalCp (some (.cp (-100)))) : ℚ) / 100),
                    player := if true then "White" else "Black" }]
            else []))
        ([] ++ [c3Board, { fen := "f1", turn := false }]) :=
  c5_absent_score_as_zero defaultAnalyzer c5Env true false "m1" [] c3Board
    { fen := "f1", turn := false } 1 [] [] none (some (.cp (-100)))
    (by decide) rfl rfl rfl

/-- C6: a record is appended exactly when the mover-perspective delta is at
or below the inaccuracy threshold, with its tier recomputed from that final
delta by `get_error_type`; hence every returned record is a Blunder,
Mistake or Inaccuracy and never "Good". -/
theorem c6_no_good_records (a : ChessAnalyzer) (env : Env) (g : Game) (u : String)
    (r : ErrorRecord) (hr : r ∈ (analyze_game a env g u).1) :
    r.error_type = a.get_error_type r.eval_change ∧
    r.eval_change ≤ a.inaccuracy_threshold ∧
    (r.error_type = "Blunder" ∨ r.error_type = "Mistake" ∨ r.error_type = "Inaccuracy") ∧
    r.error_type ≠ "Good" := by
  obtain ⟨-, het, hle⟩ := mem_analyze_game hr
  refine ⟨het, hle, ?_, ?_⟩
  · rw [het]
    exact get_error_type_cases a _ hle
  · rw [het]
    rcases get_error_type_cases a _ hle with h | h | h <;> rw [h] <;> decide

/-- Witness for C6: the record emitted by the C1 worked example. -/
theorem c6_witness :
    c1Record.error_type = defaultAnalyzer.get_error_type c1Record.eval_change ∧
    c1Record.eval_change ≤ defaultAnalyzer.inaccuracy_threshold ∧
    (c1Record.error_type = "Blunder" ∨ c1Record.error_type = "Mistake" ∨
      c1Record.error_type = "Inaccuracy") ∧
    c1Record.error_type ≠ "Good" :=
  c6_no_good_records defaultAnalyzer c1Env c1Game "alice" c1Record
    (by norm_num [analyze_game, analyzeMoves, analyzePly, evalCp, evalChangeCp,
      Score.whiteScore, ChessAnalyzer.get_error_type, defaultAnalyzer, pyLower,
      c1Env, c1Game, c1Record])

/-- C7 counterexample: the claim "the record's player field equals the
color of the side to move at evaluation time" is false as stated.  In
`c7Game` the tracked username matches **both** header names, so Black's ply
is analyzed too, and its record (`c7Record2`, evaluated from position
`"f1"` where Black was to move — see the push step and the evaluator call
list) carries `player = "White"`. -/
theorem c7_counterexample :
    (analyze_game defaultAnalyzer c7Env c7Game "alice").1 = [c7Record1, c7Record2] ∧
    c7Record2.player = "White" ∧
    c7Record2.fen_before = c7BoardBlack.fen ∧
    c7BoardBlack.turn = false ∧
    c7Env.push c7Game.board "m1" = .ok c7BoardBlack ∧
    (analyze_game defaultAnalyzer c7Env c7Game "alice").2 =
      [c7Game.board, c7BoardBlack, c7BoardBlack, { fen := "f2", turn := true }] := by
  refine ⟨?_, rfl, rfl, rfl, rfl, ?_⟩ <;>
    norm_num [analyze_game, analyzeMoves, analyzePly, evalCp, evalChangeCp, Score.whiteScore,
      ChessAnalyzer.get_error_type, defaultAnalyzer, pyLower, c7Env, c7Game, c7Record1,
      c7Record2, c7BoardBlack]

/-- C7 amended: provided the tracked username does not match both header
names (so `is_player_white` and `is_player_black` are not both true), every
record `analyzePly` emits carries a `player` field equal to the color of
the side to move in the board position at which the move was evaluated. -/
theorem c7_amended_player_matches_turn (a : ChessAnalyzer) (env : Env) (ipw ipb : Bool)
    (board : Board) (uci : String) (n : Nat) (cs : List Board) (b2 : Board) (r : ErrorRecord)
    (hx : ¬(ipw = true ∧ ipb = true))
    (h : analyzePly a env ipw ipb board uci n = (cs, .ok (b2, some r))) :
    r.player = (if board.turn then "White" else "Black") := by
  obtain ⟨hsa, hpl, -, -⟩ := analyzePly_some h
  cases ipw <;> cases ipb <;> cases hbt : board.turn <;> simp_all

/-- Witness for C7's amended theorem: the White ply of the C1 example, with
`is_player_white = true` and `is_player_black = false`. -/
theorem c7_witness :
    c1Record.player =
      (if ({ fen := "f0", turn := true } : Board).turn then "White" else "Black") :=
  c7_amended_player_matches_turn defaultAnalyzer c1Env true false
    { fen := "f0", turn := true } "e2e4" 1
    [{ fen := "f0", turn := true }, { fen := "f1", turn := false }]
    { fen := "f1", turn := false } c1Record (by decide)
    (by norm_num [analyzePly, evalCp, evalChangeCp, Score.whiteScore,
      ChessAnalyzer.get_error_type, defaultAnalyzer, c1Env, c1Record])

/-- C8 counterexample: the conversion of a "forced mate in N" score to
centipawns is **not** a constant extreme magnitude: mate in 1 converts to
9999 and mate in 2 to 9998, so the value depends on N. -/
theorem c8_counterexample :
    Score.whiteScore 10000 (.mate 1) = 9999 ∧
    Score.whiteScore 10000 (.mate 2) = 9998 ∧
    Score.whiteScore 10000 (.mate 1) ≠ Score.whiteScore 10000 (.mate 2) := by
  decide

/-- C8 amended: a forced mate in N converts to the extreme value
`±(10000 - N)` centipawns — mate-distance arithmetic around the 10000
sentinel, decreasing by one per move of mate distance, not a constant —
while a centipawn score converts to itself. -/
theorem c8_mate_conversion (n : Int) (hn : 0 < n) :
    Score.whiteScore 10000 (.mate n) = 10000 - n ∧
    Score.whiteScore 10000 (.mate (-n)) = -(10000 - n) ∧
    Score.whiteScore 10000 (.cp n) = n := by
  refine ⟨?_, ?_, rfl⟩
  · simp [Score.whiteScore, hn]
  · have hneg : ¬(0 < -n) := by omega
    simp only [Score.whiteScore, if_neg hneg]
    ring

/-- Witness for C8's amended theorem: mate in 3. -/
theorem c8_witness :
    Score.whiteScore 10000 (.mate 3) = 10000 - 3 ∧
    Score.whiteScore 10000 (.mate (-3)) = -(10000 - 3) ∧
    Score.whiteScore 10000 (.cp 3) = 3 :=
  c8_mate_conversion 3 (by decide)

/-- The embedded `add_game` returns the deterministic identifier of its inputs. -/
theorem add_game_id (db : DB) (md5hex : String → String) (pgn u : String) :
    (db.add_game md5hex pgn u).2 = generate_game_id md5hex pgn u := by
  unfold DB.add_game
  dsimp only
  split <;> rfl

/-- The embedded `add_game` never changes any `analyzed` flag: an existing row is left
alone, and a fresh row is inserted with `analyzed = FALSE` (so a lookup
that previously reported `False` by absence still reports `False`). -/
theorem add_game_game_analyzed (db : DB) (md5hex : String → String) (pgn u gid : String) :
    ((db.add_game md5hex pgn u).1).game_analyzed gid = db.game_analyzed gid := by
  unfold DB.add_game
  dsimp only
  split
  · rfl
  · unfold DB.game_analyzed
    dsimp only
    rw [List.find?_append]
    cases hf : List.find? (fun row => row.game_id == gid) db.games with
    | some row => rfl
    | none =>
      by_cases hid : ((generate_game_id md5hex pgn u : String) == gid) = true
      · simp [List.find?, hid]
      · simp [List.find?, hid]

/-- The embedded `add_game` never touches the analysis table. -/
theorem add_game_get_analysis (db : DB) (md5hex : String → String) (pgn u gid : String) :
    ((db.add_game md5hex pgn u).1).get_analysis gid = db.get_analysis gid := by
  unfold DB.add_game
  dsimp only
  split <;> rfl

/-- Every game queued for analysis by the cache-skip loop had its
`analyzed` flag unset in the incoming cache state. -/
theorem processGames_queued_not_analyzed (md5hex : String → String) (u : String) :
    ∀ (games : List GameRec) (db : DB) (g : GameRec),
      g ∈ (processGames md5hex u db games).2.2 →
      db.game_analyzed (generate_game_id md5hex g.pgn u) = false := by
  intro games
  induction games with
  | nil =>
    intro db g h
    simp [processGames] at h
  | cons g0 rest ih =>
    intro db g h
    rw [processGames] at h
    by_cases hpgn : g0.pgn ≠ ""
    · rw [if_pos hpgn] at h
      rcases hstep : db.add_game md5hex g0.pgn u with ⟨db1, gid⟩
      rw [hstep] at h
      dsimp only at h
      by_cases han : db1.game_analyzed gid = true
      · rw [if_pos han] at h
        rcases hr : processGames md5hex u db1 rest with ⟨db2, cl, ta⟩
        rw [hr] at h
        dsimp only at h
        have := ih db1 g (by rw [hr]; exact h)
        rw [← this, ← add_game_game_analyzed db md5hex g0.pgn u, hstep]
      · rw [if_neg han] at h
        rcases hr : processGames md5hex u db1 rest with ⟨db2, cl, ta⟩
        rw [hr] at h
        dsimp only at h
        rcases List.mem_cons.1 h with rfl | hmem
        · have hfalse : db1.game_analyzed gid = false := Bool.eq_false_iff.mpr han
          have hgid : gid = generate_game_id md5hex g.pgn u := by
            have := add_game_id db md5hex g.pgn u
            rw [hstep] at this
            exact this
          rw [← add_game_game_analyzed db md5hex g.pgn u, hstep]
          rw [← hgid]
          exact hfalse
        · have := ih db1 g (by rw [hr]; exact hmem)
          rw [← this, ← add_game_game_analyzed db md5hex g0.pgn u, hstep]
    · rw [if_neg hpgn] at h
      exact ih db g h

/-- If a fetched game's cache entry is already marked analyzed, the loop
puts its stored records (unchanged) into the cached output. -/
theorem processGames_cached_mem (md5hex : String → String) (u : String) :
    ∀ (games : List GameRec) (db : DB) (g : GameRec),
      g ∈ games → g.pgn ≠ "" →
      db.game_analyzed (generate_game_id md5hex g.pgn u) = true →
      db.get_analysis (generate_game_id md5hex g.pgn u) ∈
        (processGames md5hex u db games).2.1 := by
  intro games
  induction games with
  | nil =>
    intro db g h
    simp at h
  | cons g0 rest ih =>
    intro db g hmem hpgn han
    rw [processGames]
    rcases List.mem_cons.1 hmem with rfl | hmem0
    · rw [if_pos hpgn]
      rcases hstep : db.add_game md5hex g.pgn u with ⟨db1, gid⟩
      dsimp only
      have hgid : gid = generate_game_id md5hex g.pgn u := by
        have := add_game_id db md5hex g.pgn u
        rw [hstep] at this
        exact this
      have han1 : db1.game_analyzed gid = true := by
        have := add_game_game_analyzed db md5hex g.pgn u gid
        rw [hstep] at this
        dsimp only at this
        rw [this, hgid]
        exact han
      rw [if_pos han1]
      rcases hr : processGames md5hex u db1 rest with ⟨db2, cl, ta⟩
      dsimp only
      have hget : db1.get_analysis gid = db.get_analysis (generate_game_id md5hex g.pgn u) := by
        have := add_game_get_analysis db md5hex g.pgn u gid
        rw [hstep] at this
        dsimp only at this
        rw [this, hgid]
      rw [← hget]
      exact List.mem_cons_self _ _
    · by_cases hpgn0 : g0.pgn ≠ ""
      · rw [if_pos hpgn0]
        rcases hstep : db.add_game md5hex g0.pgn u with ⟨db1, gid⟩
        dsimp only
        have han1 : db1.game_analyzed (generate_game_id md5hex g.pgn u) = true := by
          have := add_game_game_analyzed db md5hex g0.pgn u (generate_game_id md5hex g.pgn u)
          rw [hstep] at this
          dsimp only at this
          rw [this]
          exact han
        have hget : db1.get_analysis (generate_game_id md5hex g.pgn u) =
            db.get_analysis (generate_game_id md5hex g.pgn u) := by
          have := add_game_get_analysis db md5hex g0.pgn u (generate_game_id md5hex g.pgn u)
          rw [hstep] at this
          exact this
        by_cases han0 : db1.game_analyzed gid = true
        · rw [if_pos han0]
          rcases hr : processGames md5hex u db1 rest with ⟨db2, cl, ta⟩
          dsimp only
          have := ih db1 g hmem0 hpgn han1
          rw [hr] at this
          rw [← hget]
          exact List.mem_cons_of_mem _ this
        · rw [if_neg han0]
          rcases hr : processGames md5hex u db1 rest with ⟨db2, cl, ta⟩
          dsimp only
          have := ih db1 g hmem0 hpgn han1
          rw [hr] at this
          rw [← hget]
          exact this
      · rw [if_neg hpgn0]
        exact ih db g hmem0 hpgn han

/-- C9: when a game's cache entry already has the analyzed flag set, the
batch loop returns its cached records unchanged (they appear as a block of
the combined output) and never queues the game for analysis — so the
analysis worker and hence the evaluator is not invoked for it; conversely
every queued game had its analyzed flag unset. -/
theorem c9_cache_skip (md5hex : String → String) (db : DB) (u : String)
    (games : List GameRec) (analyzeFn : String → List ErrorRecord) (g : GameRec)
    (hmem : g ∈ games) (hpgn : g.pgn ≠ "")
    (han : db.game_analyzed (generate_game_id md5hex g.pgn u) = true) :
    db.get_analysis (generate_game_id md5hex g.pgn u) ∈ (processGames md5hex u db games).2.1 ∧
    g ∉ (processGames md5hex u db games).2.2 ∧
    (∀ g2 ∈ (processGames md5hex u db games).2.2,
        db.game_analyzed (generate_game_id md5hex g2.pgn u) = false) ∧
    List.Sublist (db.get_analysis (generate_game_id md5hex g.pgn u))
      (coordinatorErrors md5hex db u games analyzeFn) := by
  refine ⟨processGames_cached_mem md5hex u games db g hmem hpgn han, ?_,
    fun g2 h2 => processGames_queued_not_analyzed md5hex u games db g2 h2, ?_⟩
  · intro hts
    have hfalse := processGames_queued_not_analyzed md5hex u games db g hts
    rw [han] at hfalse
    exact Bool.noConfusion hfalse
  · unfold coordinatorErrors
    dsimp only
    exact List.Sublist.trans
      (List.sublist_flatten_of_mem (processGames_cached_mem md5hex u games db g hmem hpgn han))
      (List.sublist_append_left _ _)

set_option maxRecDepth 10000 in
/-- Witness for C9: in `c9Db` the game with PGN "pgn1" (id "pgn1u" under
the identity digest) is marked analyzed; submitting three fetched games
(the analyzed one, an unanalyzed one, one with an empty PGN) returns its
stored record list and never queues it. -/
theorem c9_witness :
    c9Db.get_analysis (generate_game_id (fun s => s) "pgn1" "u") ∈
      (processGames (fun s => s) "u" c9Db [⟨"pgn1"⟩, ⟨"pgn2"⟩, ⟨""⟩]).2.1 ∧
    (⟨"pgn1"⟩ : GameRec) ∉ (processGames (fun s => s) "u" c9Db [⟨"pgn1"⟩, ⟨"pgn2"⟩, ⟨""⟩]).2.2 ∧
    (∀ g2 ∈ (processGames (fun s => s) "u" c9Db [⟨"pgn1"⟩, ⟨"pgn2"⟩, ⟨""⟩]).2.2,
        c9Db.game_analyzed (generate_game_id (fun s => s) g2.pgn "u") = false) ∧
    List.Sublist (c9Db.get_analysis (generate_game_id (fun s => s) "pgn1" "u"))
      (coordinatorErrors (fun s => s) c9Db "u" [⟨"pgn1"⟩, ⟨"pgn2"⟩, ⟨""⟩] (fun _ => [])) :=
  c9_cache_skip (fun s => s) c9Db "u" [⟨"pgn1"⟩, ⟨"pgn2"⟩, ⟨""⟩] (fun _ => []) ⟨"pgn1"⟩
    (by decide) (by decide) (by decide)

/-- C10: the cache key `generate_game_id` depends only on the first 100
characters of the PGN plus the username, for any digest function: two PGNs
agreeing on their first 100 characters produce the same identifier. -/
theorem c10_game_id_first100 (md5hex : String → String) (u p1 p2 : String)
    (h : p1.take 100 = p2.take 100) :
    generate_game_id md5hex p1 u = generate_game_id md5hex p2 u := by
  unfold generate_game_id
  rw [h]

set_option maxRecDepth 10000 in
/-- Witness for C10: two distinct 101-character PGNs that agree on their
first 100 characters collide onto the same identifier (identity digest). -/
theorem c10_witness :
    ("aaaaaaaaaaaaaaaaaaaaaaaaaaaaaaaaaaaaaaaaaaaaaaaaaaaaaaaaaaaaaaaaaaaaaaaaaaaaaaaaaaaaaaaaaaaaaaaaaaaax" : String) ≠
      "aaaaaaaaaaaaaaaaaaaaaaaaaaaaaaaaaaaaaaaaaaaaaaaaaaaaaaaaaaaaaaaaaaaaaaaaaaaaaaaaaaaaaaaaaaaaaaaaaaaay" ∧
    generate_game_id (fun s => s)
        "aaaaaaaaaaaaaaaaaaaaaaaaaaaaaaaaaaaaaaaaaaaaaaaaaaaaaaaaaaaaaaaaaaaaaaaaaaaaaaaaaaaaaaaaaaaaaaaaaaaax" "u" =
      generate_game_id (fun s => s)
        "aaaaaaaaaaaaaaaaaaaaaaaaaaaaaaaaaaaaaaaaaaaaaaaaaaaaaaaaaaaaaaaaaaaaaaaaaaaaaaaaaaaaaaaaaaaaaaaaaaaay" "u" :=
  ⟨by decide,
   c10_game_id_first100 (fun s => s) "u"
     "aaaaaaaaaaaaaaaaaaaaaaaaaaaaaaaaaaaaaaaaaaaaaaaaaaaaaaaaaaaaaaaaaaaaaaaaaaaaaaaaaaaaaaaaaaaaaaaaaaaax"
     "aaaaaaaaaaaaaaaaaaaaaaaaaaaaaaaaaaaaaaaaaaaaaaaaaaaaaaaaaaaaaaaaaaaaaaaaaaaaaaaaaaaaaaaaaaaaaaaaaaaay"
     (by decide)⟩
